import Mathlib

/-!
Verification of the t-rex webserver request gateway
(`src/t-rex-webserver/src/server.rs`).

The handlers of `server.rs` are embedded as pure Lean functions.  External
collaborators (the `MvtService` tile/metadata backend, the embedded font map
generated into `OUT_DIR/fonts.rs`, the filesystem behind `actix_files`) are
passed in as function parameters, so every theorem quantifies over their
behaviour.  Rust standard-library string operations (`str::split`,
`str::replace`, `str::contains`, `f64::from_str`, `u8::from_str`) are
re-implemented structurally over `List Char` so that all definitions reduce
inside the kernel.
-/

set_option autoImplicit false

namespace TRex

/-! ## String helpers (structural models of Rust `str` operations) -/

/-- Does the character list start with the given pattern?  Models the
matching step of Rust string search. -/
def charsStartWith : List Char → List Char → Bool
  | _, [] => true
  | [], _ :: _ => false
  | a :: as, b :: bs => a = b && charsStartWith as bs

/-- Does the character list end with the given pattern?  Models Rust
`str::ends_with`. -/
def charsEndWith (l pat : List Char) : Bool :=
  charsStartWith l.reverse pat.reverse

/-- Does the character list contain the pattern as a contiguous run?
Models Rust `str::contains` for a nonempty needle. -/
def charsContain : List Char → List Char → Bool
  | [], pat => charsStartWith [] pat
  | a :: rest, pat => charsStartWith (a :: rest) pat || charsContain rest pat

/-- Accumulator for splitting a character list at a separator character. -/
def splitCharAux (sep : Char) : List Char → List Char × List (List Char)
  | [] => ([], [])
  | c :: rest =>
    let r := splitCharAux sep rest
    if c = sep then ([], r.1 :: r.2) else (c :: r.1, r.2)

/-- Split a character list on a separator character.  Models Rust
`str::split` with a single-character pattern: the result is always
nonempty, and an empty input yields one empty piece. -/
def splitChar (sep : Char) (l : List Char) : List (List Char) :=
  let r := splitCharAux sep l
  r.1 :: r.2

/-- Replace every occurrence of `"%20"` by a space, left to right.  Models
`font.replace("%20", " ")` from `fonts_pbf`. -/
def decodeSpace : List Char → List Char
  | '%' :: '2' :: '0' :: rest => ' ' :: decodeSpace rest
  | c :: rest => c :: decodeSpace rest
  | [] => []

/-- Rust `str::contains("gzip")`, used on the `Accept-Encoding` header
value in `tile_pbf`. -/
def containsGzip (s : String) : Bool :=
  charsContain s.data "gzip".data

/-- All characters are ASCII digits. -/
def isDigits (l : List Char) : Bool :=
  l.all (fun c => c.isDigit)

/-- Split a character list at the first `e` or `E` (exponent marker of a
float literal), if any. -/
def splitExp : List Char → List Char × Option (List Char)
  | [] => ([], none)
  | c :: rest =>
    if c = 'e' || c = 'E' then ([], some rest)
    else
      let r := splitExp rest
      (c :: r.1, r.2)

/-- Valid mantissa of a float literal: digits with at most one dot and at
least one digit overall. -/
def isMantissa (l : List Char) : Bool :=
  match splitChar '.' l with
  | [a] => a ≠ [] && isDigits a
  | [a, b] => (a ≠ [] || b ≠ []) && isDigits a && isDigits b
  | _ => false

/-- Optionally signed nonempty digit run (float exponent part). -/
def isSignedDigits : List Char → Bool
  | '+' :: r => r ≠ [] && isDigits r
  | '-' :: r => r ≠ [] && isDigits r
  | r => r ≠ [] && isDigits r

/-- Does the string parse as an `f64` under Rust `f64::from_str`?  Models
the grammar: optional sign, then `inf`, `infinity` or `nan`
(case-insensitive), or a mantissa with an optional exponent. -/
def isF64Literal (s : String) : Bool :=
  let l := match s.data with
    | '+' :: r => r
    | '-' :: r => r
    | r => r
  let low := l.map Char.toLower
  if low = ['i', 'n', 'f'] || low = ['i', 'n', 'f', 'i', 'n', 'i', 't', 'y']
      || low = ['n', 'a', 'n'] then
    true
  else
    match splitExp l with
    | (mant, none) => isMantissa mant
    | (mant, some ex) => isMantissa mant && isSignedDigits ex

/-- Digit characters to the natural number they denote (base 10). -/
def digitsToNat : List Char → Nat → Nat
  | [], acc => acc
  | c :: r, acc => digitsToNat r (acc * 10 + (c.toNat - 48))

/-- Rust `u8::from_str`: nonempty ASCII digit run whose value fits in a
`u8` (the optional leading `+` accepted by Rust is included). -/
def parseU8 (s : String) : Option Nat :=
  let l := match s.data with
    | '+' :: r => r
    | r => r
  if l ≠ [] ∧ isDigits l then
    let n := digitsToNat l 0
    if n ≤ 255 then some n else none
  else none

/-! ## HTTP response model -/

/-- JSON documents produced by the external `MvtService` are opaque here. -/
abbrev Json := String

/-- Response body: raw bytes (tile and font payloads) or a JSON document. -/
inductive BodyVal where
  | bytes (b : List Nat)
  | json (j : Json)
deriving Repr, DecidableEq

/-- Explicit `ContentEncoding` values set through actix's
`.encoding(..)`; only `Identity` is used by `server.rs` (it disables the
`Compress` transport middleware for the response). -/
inductive ContentEncoding where
  | Identity
deriving Repr, DecidableEq

/-- The observable parts of an `HttpResponse` built by the handlers:
status code, content type, explicitly added headers in insertion order,
the transport-compression override, and the body. -/
structure HttpResponse where
  status : Nat
  contentType : Option String
  headers : List (String × String)
  encoding : Option ContentEncoding
  body : Option BodyVal
deriving Repr, DecidableEq

/-- `HttpResponse::NotFound().finish()`. -/
def notFoundResponse : HttpResponse :=
  { status := 404, contentType := none, headers := [], encoding := none, body := none }

/-- `HttpResponse::NoContent().finish()`. -/
def noContentResponse : HttpResponse :=
  { status := 204, contentType := none, headers := [], encoding := none, body := none }

/-- `HttpResponse::Ok().json(doc)`. -/
def jsonOkResponse (j : Json) : HttpResponse :=
  { status := 200, contentType := some "application/json", headers := [],
    encoding := none, body := some (BodyVal.json j) }

/-- Outcome of running a handler body: a constructed response, or a Rust
panic (from `unwrap` / `expect`) that aborts the handler without building
any response. -/
inductive HandlerOutcome where
  | response (r : HttpResponse)
  | panics (msg : String)
deriving Repr, DecidableEq

/-- Status code of the outcome; `none` when the handler panicked and no
response exists. -/
def HandlerOutcome.statusOf : HandlerOutcome → Option Nat
  | .response r => some r.status
  | .panics _ => none

/-! ## Font handler (`fonts_pbf`, server.rs lines 64-85) -/

/-- The lookup key `format!("fonts/\x7b\x7d/\x7b\x7d.pbf", font.replace("%20", " "), range)`. -/
def fontKey (font range : String) : String :=
  "fonts/" ++ String.mk (decodeSpace font.data) ++ "/" ++ range ++ ".pbf"

/-- The probed family list: the comma-split caller stack with the fixed
fallback `"Roboto Regular"` pushed at the end. -/
def fontFamilies (fontlist : String) : List String :=
  (splitChar ',' fontlist.data).map String.mk ++ ["Roboto Regular"]

/-- Response for a font hit: `200`, protobuf content type, transport
compression disabled and `Content-Encoding: gzip` set, body the stored
(pre-compressed) bytes. -/
def fontOkResponse (pbf : List Nat) : HttpResponse :=
  { status := 200, contentType := some "application/x-protobuf",
    headers := [("Content-Encoding", "gzip")],
    encoding := some ContentEncoding.Identity,
    body := some (BodyVal.bytes pbf) }

/-- The `for font in fonts` loop of `fonts_pbf`: starting from the
`NotFound` default, the first family whose key is in the map overwrites
the response and breaks. -/
def fontsLoop (fontpbfs : String → Option (List Nat)) (range : String) :
    List String → HttpResponse
  | [] => notFoundResponse
  | font :: rest =>
    match fontpbfs (fontKey font range) with
    | some pbf => fontOkResponse pbf
    | none => fontsLoop fontpbfs range rest

/-- Handler for `/fonts/\x7bfonts\x7d/\x7brange\x7d.pbf`.  `fontpbfs` is the
in-memory map produced by the generated `fonts()` function (built once at
startup from embedded resources, not part of `src/`). -/
def fonts_pbf (fontpbfs : String → Option (List Nat)) (fontlist range : String) :
    HttpResponse :=
  fontsLoop fontpbfs range (fontFamilies fontlist)

/-- Spec-side resolver, following the spec's words: append the fixed
fallback family after the caller's list, build each family's key in caller
order, and return the payload of the first family that has an entry. -/
def fontResolveSpec (fontpbfs : String → Option (List Nat)) (fontlist range : String) :
    Option (List Nat) :=
  ((fontFamilies fontlist).map (fun f => fontpbfs (fontKey f range))).findSome? id

/-! ## Tile handler (`tile_pbf`, server.rs lines 118-155) -/

/-- The configuration fields of `ApplicationCfg` read by the handlers.
`cache_control_max_age` is `config.webserver.cache_control_max_age`. -/
structure WebserverCfg where
  cache_control_max_age : Option Nat
deriving Repr, DecidableEq

structure ApplicationCfg where
  webserver : WebserverCfg
deriving Repr, DecidableEq

/-- The request data `tile_pbf` inspects: the `Accept-Encoding` header
value, when present and readable as a string. -/
structure HttpRequestInfo where
  accept_encoding : Option String
deriving Repr, DecidableEq

/-- The `gzip` flag computed by `tile_pbf`: the `Accept-Encoding` header
exists and contains `"gzip"`. -/
def acceptsGzip (req : HttpRequestInfo) : Bool :=
  match req.accept_encoding with
  | some s => containsGzip s
  | none => false

/-- Handler for `/\x7btileset\x7d/\x7bz\x7d/\x7bx\x7d/\x7by\x7d.pbf`.
`tile_cached` is the external `service.tile_cached(tileset, x, y, z, gzip,
None)` call returning the optional stored tile bytes (already
gzip-compressed when the `gzip` flag is passed). -/
def tile_pbf (config : ApplicationCfg)
    (tile_cached : String → Nat → Nat → Nat → Bool → Option (List Nat))
    (tileset : String) (z x y : Nat) (req : HttpRequestInfo) : HttpResponse :=
  let gzip := acceptsGzip req
  let tile := tile_cached tileset x y z gzip
  let cache_max_age := config.webserver.cache_control_max_age.getD 300
  match tile with
  | some tile =>
      { status := 200
        contentType := some "application/x-protobuf"
        encoding := if gzip then some ContentEncoding.Identity else none
        headers := (if gzip then [("Content-Encoding", "gzip")] else [])
          ++ [("Cache-Control", "max-age=" ++ toString cache_max_age)]
        body := some (BodyVal.bytes tile) }
  | none => noContentResponse

/-! ## Metadata handlers (server.rs lines 49-52, 87-116) -/

/-- `req_baseurl`: scheme and host of the request's connection info. -/
def req_baseurl (scheme host : String) : String :=
  scheme ++ "://" ++ host

/-- Handler for `/index.json`: `service.get_mvt_metadata().unwrap()` then
`Ok().json(..)`.  An `Err` from the external call makes `unwrap` panic. -/
def mvt_metadata (get_mvt_metadata : Except String Json) : HandlerOutcome :=
  match get_mvt_metadata with
  | .ok json => .response (jsonOkResponse json)
  | .error e => .panics e

/-- Handler for `/\x7btileset\x7d.json`:
`service.get_tilejson(req_baseurl, tileset).unwrap()`. -/
def tileset_tilejson (get_tilejson : String → String → Except String Json)
    (scheme host tileset : String) : HandlerOutcome :=
  match get_tilejson (req_baseurl scheme host) tileset with
  | .ok json => .response (jsonOkResponse json)
  | .error e => .panics e

/-- Handler for `/\x7btileset\x7d.style.json`:
`service.get_stylejson(req_baseurl, tileset).unwrap()`. -/
def tileset_style_json (get_stylejson : String → String → Except String Json)
    (scheme host tileset : String) : HandlerOutcome :=
  match get_stylejson (req_baseurl scheme host) tileset with
  | .ok json => .response (jsonOkResponse json)
  | .error e => .panics e

/-- Handler for `/\x7btileset\x7d/metadata.json`:
`service.get_mbtiles_metadata(tileset).unwrap()`. -/
def tileset_metadata_json (get_mbtiles_metadata : String → Except String Json)
    (tileset : String) : HandlerOutcome :=
  match get_mbtiles_metadata tileset with
  | .ok json => .response (jsonOkResponse json)
  | .error e => .panics e

/-! ## Drilldown handler (server.rs lines 174-199) -/

/-- The query-deserialized parameter struct.  Its only fields are
`minzoom`, `maxzoom` (optional `u8`, modelled as `Nat ≤ 255`) and the raw
`points` string; there is no `tileset` field. -/
structure DrilldownParams where
  minzoom : Option Nat
  maxzoom : Option Nat
  points : String
deriving Repr, DecidableEq

/-- First value for a query key. -/
def queryGet (q : List (String × String)) (k : String) : Option String :=
  (q.find? (fun kv => kv.fst = k)).map (fun kv => kv.snd)

/-- Deserialize an optional `u8` query field: absence is fine, an
unparseable value fails the whole extraction. -/
def parseOptU8 : Option String → Option (Option Nat)
  | none => some none
  | some s => (parseU8 s).map some

/-- serde-style extraction of `web::Query<DrilldownParams>` from the query
pairs: `points` required, `minzoom` / `maxzoom` optional numeric, unknown
keys (such as `tileset`) ignored. -/
def DrilldownParams.fromQuery (q : List (String × String)) : Option DrilldownParams :=
  match queryGet q "points", parseOptU8 (queryGet q "minzoom"),
      parseOptU8 (queryGet q "maxzoom") with
  | some pts, some mz, some mx => some { minzoom := mz, maxzoom := mx, points := pts }
  | _, _, _ => none

/-- The argument tuple of the external
`service.drilldown(tileset, minzoom, maxzoom, points, progress)` call.
The `f64` point values are represented by their (validated) source tokens,
since the statistics computation is external and the claims do not depend
on numeric value. -/
structure DrilldownCall where
  tileset : Option String
  minzoom : Option Nat
  maxzoom : Option Nat
  points : List String
  progress : Bool
deriving Repr, DecidableEq

/-- Handler for `/drilldown`.  `tileset` is hardcoded to `None` ("all
tilesets") and `progress` to `false`.  The points string is split on `,`
and each token parsed as `f64` with
`.expect("Error parsing 'point' as pair of float values")`: any invalid
token panics the handler; the collected list — of whatever length — is
passed to the external `drilldown`, whose statistics are returned as a
`200` JSON response. -/
def drilldown_handler (drilldown : DrilldownCall → Json) (params : DrilldownParams) :
    HandlerOutcome :=
  let tileset : Option String := none
  let progress := false
  let toks := (splitChar ',' params.points.data).map String.mk
  if toks.all isF64Literal then
    let stats := drilldown
      { tileset := tileset, minzoom := params.minzoom, maxzoom := params.maxzoom,
        points := toks, progress := progress }
    .response (jsonOkResponse stats)
  else
    .panics "Error parsing 'point' as pair of float values"

/-! ## Application routing (`webserver`, server.rs lines 221-257)

The `App` registers services in a fixed order: the seven API resources,
then one `actix_files::Files` service per configured static directory that
exists on disk (declaration order), then — only when `mvt_viewer` is set —
the `/drilldown` resource and the embedded-asset `default_service`.
Dispatch picks the first registered service matching the request path;
an unmatched request with no default service gets actix's `NotFound`. -/

/-- A configured static directory: mount path and filesystem directory
(`config.webserver.static_`). -/
structure StaticDirCfg where
  path : String
  dir : String
deriving Repr, DecidableEq

/-- The handler a request path resolves to. -/
inductive Handler where
  | indexJson
  | fontstacksJson
  | fontsRoute
  | styleJson
  | metadataJson
  | tilesetJson
  | tileRoute
  | drilldownRoute
  | filesDir (path dir : String)
  | embeddedAssets
deriving Repr, DecidableEq

/-- Segments of a request path after the leading `/`. -/
def pathSegments (p : String) : List String :=
  ((splitChar '/' p.data).map String.mk).drop 1

/-- A dynamic `\x7bname\x7d` template segment: any nonempty segment. -/
def segIsDyn (s : String) : Bool :=
  s ≠ ""

/-- A dynamic segment followed by a literal suffix, e.g. `\x7by\x7d.pbf`:
the segment ends with the suffix and the dynamic part is nonempty. -/
def segDynSuffix (s suffix : String) : Bool :=
  charsEndWith s.data suffix.data && decide (suffix.data.length < s.data.length)

/-- Template `/fonts/\x7bfonts\x7d/\x7brange\x7d.pbf`. -/
def matchesFontsPbf (p : String) : Bool :=
  match pathSegments p with
  | [a, f, r] => a = "fonts" && segIsDyn f && segDynSuffix r ".pbf"
  | _ => false

/-- Template `/\x7btileset\x7d.style.json`. -/
def matchesStyleJson (p : String) : Bool :=
  match pathSegments p with
  | [s] => segDynSuffix s ".style.json"
  | _ => false

/-- Template `/\x7btileset\x7d/metadata.json`. -/
def matchesMetadataJson (p : String) : Bool :=
  match pathSegments p with
  | [t, m] => segIsDyn t && m = "metadata.json"
  | _ => false

/-- Template `/\x7btileset\x7d.json`. -/
def matchesTilesetJson (p : String) : Bool :=
  match pathSegments p with
  | [s] => segDynSuffix s ".json"
  | _ => false

/-- Template `/\x7btileset\x7d/\x7bz\x7d/\x7bx\x7d/\x7by\x7d.pbf`. -/
def matchesTilePbf (p : String) : Bool :=
  match pathSegments p with
  | [t, z, x, y] => segIsDyn t && segIsDyn z && segIsDyn x && segDynSuffix y ".pbf"
  | _ => false

/-- The seven API resources in registration order (server.rs lines
228-242); the first matching template wins. -/
def apiRoute (p : String) : Option Handler :=
  if p = "/index.json" then some Handler.indexJson
  else if p = "/fontstacks.json" then some Handler.fontstacksJson
  else if matchesFontsPbf p then some Handler.fontsRoute
  else if matchesStyleJson p then some Handler.styleJson
  else if matchesMetadataJson p then some Handler.metadataJson
  else if matchesTilesetJson p then some Handler.tilesetJson
  else if matchesTilePbf p then some Handler.tileRoute
  else none

/-- Full dispatch of a request path through the registered services.
`dirExists` is the startup `Path::is_dir` check filtering the registered
directories; `dirServes` tells whether a mounted directory's file service
handles the path (modelled from the spec: a configured directory service
handles exactly the paths it contains — the `actix_files` internals are
outside `src/`).  Registration order from the source: API routes, then the
existing static directories in declaration order, then (viewer only) the
`/drilldown` resource and the embedded-asset default service.  `none`
means no service matched and actix answers `NotFound`. -/
def resolveApp (staticDirs : List StaticDirCfg) (dirExists : String → Bool)
    (dirServes : StaticDirCfg → String → Bool) (mvtViewer : Bool) (p : String) :
    Option Handler :=
  match apiRoute p with
  | some h => some h
  | none =>
    match (staticDirs.filter (fun d => dirExists d.dir)).find? (fun d => dirServes d p) with
    | some d => some (Handler.filesDir d.path d.dir)
    | none =>
      if mvtViewer then
        if p = "/drilldown" then some Handler.drilldownRoute
        else some Handler.embeddedAssets
      else none

/-! ## Concrete service instances used by witnesses -/

/-- Tile service with no tile stored anywhere. -/
def tileSvcNone : String → Nat → Nat → Nat → Bool → Option (List Nat) :=
  fun _ _ _ _ _ => none

/-- Tile service storing the byte payload `[31, 139, 8]` everywhere. -/
def tileSvcBytes : String → Nat → Nat → Nat → Bool → Option (List Nat) :=
  fun _ _ _ _ _ => some [31, 139, 8]

/-- Drilldown statistics service that reports which tileset filter it was
invoked with. -/
def drilldownProbe : DrilldownCall → Json := fun c =>
  match c.tileset with
  | some t => "only:" ++ t
  | none => "all"

/-! ## Theorems -/

/-- The font loop returns the first hit of the keyed lookups, in family
order, and `NotFound` when every lookup misses. -/
theorem fontsLoop_eq_findSome (m : String → Option (List Nat)) (range : String)
    (fs : List String) :
    fontsLoop m range fs =
      match (fs.map (fun f => m (fontKey f range))).findSome? id with
      | some pbf => fontOkResponse pbf
      | none => notFoundResponse := by
  induction fs with
  | nil => rfl
  | cons f rest ih =>
    cases h : m (fontKey f range) with
    | some pbf => simp [fontsLoop, h, List.findSome?_cons]
    | none => simp [fontsLoop, h, List.findSome?_cons, ih]

/-- Evaluation of `tile_pbf` when the tile lookup succeeds. -/
theorem tile_pbf_found (config : ApplicationCfg)
    (svc : String → Nat → Nat → Nat → Bool → Option (List Nat))
    (tileset : String) (z x y : Nat) (req : HttpRequestInfo) (b : List Nat)
    (h : svc tileset x y z (acceptsGzip req) = some b) :
    tile_pbf config svc tileset z x y req =
      { status := 200, contentType := some "application/x-protobuf",
        encoding := if acceptsGzip req then some ContentEncoding.Identity else none,
        headers := (if acceptsGzip req then [("Content-Encoding", "gzip")] else [])
          ++ [("Cache-Control", "max-age=" ++
                toString (config.webserver.cache_control_max_age.getD 300))],
        body := some (BodyVal.bytes b) } := by
  simp only [tile_pbf]
  rw [h]

/-- Evaluation of `tile_pbf` when the tile lookup misses. -/
theorem tile_pbf_absent (config : ApplicationCfg)
    (svc : String → Nat → Nat → Nat → Bool → Option (List Nat))
    (tileset : String) (z x y : Nat) (req : HttpRequestInfo)
    (h : svc tileset x y z (acceptsGzip req) = none) :
    tile_pbf config svc tileset z x y req = noContentResponse := by
  simp only [tile_pbf]
  rw [h]

/-- C3: font resolution appends the fixed fallback family after the
caller's comma-separated list, probes the startup-built glyph mapping once
per family in caller order under key `fonts/<family>/<range>.pbf` with
`%20` decoded to a space, and the handler's response carries the payload
of the first family that has an entry, never a later one (and `NotFound`
when none has). -/
theorem fonts_pbf_first_hit_resolution (m : String → Option (List Nat))
    (fontlist range : String) :
    fonts_pbf m fontlist range =
      match fontResolveSpec m fontlist range with
      | some pbf => fontOkResponse pbf
      | none => notFoundResponse :=
  fontsLoop_eq_findSome m range (fontFamilies fontlist)

/-- C6: a font stack whose families — the appended fallback included — all
miss the glyph mapping yields the 404 `NotFound` response; the handler is
a total function, so this outcome is an ordinary return, not an abort. -/
theorem fonts_pbf_exhausted_not_found (m : String → Option (List Nat))
    (fontlist range : String)
    (h : ∀ f ∈ fontFamilies fontlist, m (fontKey f range) = none) :
    fonts_pbf m fontlist range = notFoundResponse ∧ notFoundResponse.status = 404 := by
  refine ⟨?_, rfl⟩
  rw [fonts_pbf, fontsLoop_eq_findSome]
  have hn : ((fontFamilies fontlist).map (fun f => m (fontKey f range))).findSome? id
      = none := by
    rw [List.findSome?_eq_none_iff]
    intro o ho
    rcases List.mem_map.mp ho with ⟨f, hf, rfl⟩
    exact h f hf
  rw [hn]

theorem fonts_pbf_exhausted_not_found_witness :
    fonts_pbf (fun _ => none) "Helvetica,Arial" "0-255" = notFoundResponse ∧
    notFoundResponse.status = 404 :=
  fonts_pbf_exhausted_not_found (fun _ => none) "Helvetica,Arial" "0-255"
    (fun _ _ => rfl)

/-- C4: for every well-formed tile request, a `none` tile lookup gives the
bodiless 204 `NoContent` response, and a `some` lookup gives a 200
response with the tile bytes and content type `application/x-protobuf`;
`tile_pbf` is a total function, so it never raises on well-formed input. -/
theorem tile_pbf_absent_or_bytes (config : ApplicationCfg)
    (svc : String → Nat → Nat → Nat → Bool → Option (List Nat))
    (tileset : String) (z x y : Nat) (req : HttpRequestInfo) :
    (svc tileset x y z (acceptsGzip req) = none →
      tile_pbf config svc tileset z x y req = noContentResponse ∧
      noContentResponse.status = 204 ∧ noContentResponse.body = none) ∧
    (∀ b, svc tileset x y z (acceptsGzip req) = some b →
      (tile_pbf config svc tileset z x y req).status = 200 ∧
      (tile_pbf config svc tileset z x y req).contentType =
        some "application/x-protobuf" ∧
      (tile_pbf config svc tileset z x y req).body = some (BodyVal.bytes b)) := by
  constructor
  · intro h
    exact ⟨tile_pbf_absent config svc tileset z x y req h, rfl, rfl⟩
  · intro b h
    rw [tile_pbf_found config svc tileset z x y req b h]
    exact ⟨rfl, rfl, rfl⟩

theorem tile_pbf_absent_or_bytes_witness :
    tile_pbf ⟨⟨none⟩⟩ tileSvcNone "osm" 1 2 3 ⟨none⟩ = noContentResponse ∧
    (tile_pbf ⟨⟨none⟩⟩ tileSvcBytes "osm" 1 2 3 ⟨none⟩).status = 200 :=
  ⟨((tile_pbf_absent_or_bytes ⟨⟨none⟩⟩ tileSvcNone "osm" 1 2 3 ⟨none⟩).1 rfl).1,
   ((tile_pbf_absent_or_bytes ⟨⟨none⟩⟩ tileSvcBytes "osm" 1 2 3 ⟨none⟩).2
      [31, 139, 8] rfl).1⟩

/-- C5: every 200 tile response — whether the external `tile_cached` call
served it from its cache or rendered it afresh, i.e. for every `some`
result — carries `Cache-Control: max-age=N` with `N` the configured
`cache_control_max_age`, and `max-age=300` when it is not configured. -/
theorem tile_pbf_cache_control (config : ApplicationCfg)
    (svc : String → Nat → Nat → Nat → Bool → Option (List Nat))
    (tileset : String) (z x y : Nat) (req : HttpRequestInfo) (b : List Nat)
    (h : svc tileset x y z (acceptsGzip req) = some b) :
    ("Cache-Control",
        "max-age=" ++ toString (config.webserver.cache_control_max_age.getD 300)) ∈
      (tile_pbf config svc tileset z x y req).headers ∧
    (config.webserver.cache_control_max_age = none →
      ("Cache-Control", "max-age=300") ∈
        (tile_pbf config svc tileset z x y req).headers) := by
  constructor
  · rw [tile_pbf_found config svc tileset z x y req b h]
    exact List.mem_append_right _ (List.mem_singleton.mpr rfl)
  · intro hc
    rw [tile_pbf_found config svc tileset z x y req b h, hc]
    exact List.mem_append_right _ (List.mem_singleton.mpr rfl)

theorem tile_pbf_cache_control_witness :
    ("Cache-Control", "max-age=300") ∈
      (tile_pbf ⟨⟨none⟩⟩ tileSvcBytes "osm" 1 2 3 ⟨none⟩).headers :=
  (tile_pbf_cache_control ⟨⟨none⟩⟩ tileSvcBytes "osm" 1 2 3 ⟨none⟩
    [31, 139, 8] rfl).2 rfl

/-- C2: when the tile is found and the requester accepts gzip — the only
case in which the stored payload is requested (and per the external
contract returned) already compressed — the response carries
`Content-Encoding: gzip` exactly once, sets the `Identity` encoding
override that suppresses the `Compress` transport middleware, and its body
is exactly the stored bytes; when the requester does not accept gzip, or
the tile is absent, no `Content-Encoding: gzip` marking is applied. -/
theorem tile_pbf_gzip_marking (config : ApplicationCfg)
    (svc : String → Nat → Nat → Nat → Bool → Option (List Nat))
    (tileset : String) (z x y : Nat) :
    (∀ req b, acceptsGzip req = true → svc tileset x y z true = some b →
      (tile_pbf config svc tileset z x y req).headers.count ("Content-Encoding", "gzip")
          = 1 ∧
      (tile_pbf config svc tileset z x y req).encoding =
        some ContentEncoding.Identity ∧
      (tile_pbf config svc tileset z x y req).body = some (BodyVal.bytes b)) ∧
    (∀ req, acceptsGzip req = false →
      (tile_pbf config svc tileset z x y req).headers.count ("Content-Encoding", "gzip")
        = 0) ∧
    (∀ req, svc tileset x y z (acceptsGzip req) = none →
      (tile_pbf config svc tileset z x y req).headers.count ("Content-Encoding", "gzip")
        = 0) := by
  refine ⟨?_, ?_, ?_⟩
  · intro req b hg ht
    have ht2 : svc tileset x y z (acceptsGzip req) = some b := by rw [hg]; exact ht
    rw [tile_pbf_found config svc tileset z x y req b ht2, hg]
    refine ⟨?_, rfl, rfl⟩
    simp [List.count_cons]
  · intro req hg
    cases hsvc : svc tileset x y z (acceptsGzip req) with
    | some t =>
      rw [tile_pbf_found config svc tileset z x y req t hsvc, hg]
      simp [List.count_cons]
    | none =>
      rw [tile_pbf_absent config svc tileset z x y req hsvc]
      rfl
  · intro req hn
    rw [tile_pbf_absent config svc tileset z x y req hn]
    rfl

theorem tile_pbf_gzip_marking_witness :
    (tile_pbf ⟨⟨none⟩⟩ tileSvcBytes "osm" 1 2 3
        ⟨some "gzip"⟩).headers.count ("Content-Encoding", "gzip") = 1 ∧
    (tile_pbf ⟨⟨none⟩⟩ tileSvcBytes "osm" 1 2 3
        ⟨none⟩).headers.count ("Content-Encoding", "gzip") = 0 :=
  ⟨((tile_pbf_gzip_marking ⟨⟨none⟩⟩ tileSvcBytes "osm" 1 2 3).1
      ⟨some "gzip"⟩ [31, 139, 8] rfl rfl).1,
   (tile_pbf_gzip_marking ⟨⟨none⟩⟩ tileSvcBytes "osm" 1 2 3).2.1 ⟨none⟩ rfl⟩

/-- C1 (code bug): on `points=10,20,30` — an odd count — the handler
performs no even-length check, invokes the external drilldown computation
with the three parsed values, and answers 200 with its statistics; on a
non-numeric token such as `points=abc` it panics through `expect` instead
of building any response.  The claim (and the spec) require an HTTP 400
client error with the drilldown computation never invoked; the `FIXME`
comment in the source acknowledges the missing error mapping. -/
theorem drilldown_malformed_evaluation (drilldown : DrilldownCall → Json)
    (mz mx : Option Nat) :
    drilldown_handler drilldown { minzoom := mz, maxzoom := mx, points := "10,20,30" } =
      .response (jsonOkResponse (drilldown
        { tileset := none, minzoom := mz, maxzoom := mx,
          points := ["10", "20", "30"], progress := false })) ∧
    (drilldown_handler drilldown
        { minzoom := mz, maxzoom := mx, points := "10,20,30" }).statusOf = some 200 ∧
    drilldown_handler drilldown { minzoom := mz, maxzoom := mx, points := "abc" } =
      .panics "Error parsing 'point' as pair of float values" ∧
    (drilldown_handler drilldown
        { minzoom := mz, maxzoom := mx, points := "abc" }).statusOf = none :=
  ⟨rfl, rfl, rfl, rfl⟩

/-- C7 counterexample: the deserialized parameter struct of the drilldown
handler has no `tileset` field, so a request carrying `tileset=osm` in its
query extracts to the same parameters as one without it, and the handler
invokes the drilldown computation with the filter hardcoded to `none`
("all tilesets"): the probe service observes `none`, not `osm`. -/
theorem drilldown_tileset_param_ignored_cex :
    DrilldownParams.fromQuery [("points", "10,20"), ("tileset", "osm")] =
      some { minzoom := none, maxzoom := none, points := "10,20" } ∧
    drilldown_handler drilldownProbe
        { minzoom := none, maxzoom := none, points := "10,20" } =
      .response (jsonOkResponse "all") :=
  ⟨rfl, rfl⟩

/-- C7 (amended): the drilldown handler ignores any `tileset` query
parameter; the tileset filter passed to the drilldown computation is
always `none`, so statistics are always computed for all configured
tilesets. -/
theorem drilldown_filter_always_none (drilldown : DrilldownCall → Json)
    (params : DrilldownParams)
    (h : ((splitChar ',' params.points.data).map String.mk).all isF64Literal = true) :
    drilldown_handler drilldown params =
      .response (jsonOkResponse (drilldown
        { tileset := none, minzoom := params.minzoom, maxzoom := params.maxzoom,
          points := (splitChar ',' params.points.data).map String.mk,
          progress := false })) := by
  rw [drilldown_handler]
  simp [h]

theorem drilldown_filter_always_none_witness :
    drilldown_handler drilldownProbe
        { minzoom := none, maxzoom := none, points := "1,2" } =
      .response (jsonOkResponse (drilldownProbe
        { tileset := none, minzoom := none, maxzoom := none,
          points := (splitChar ',' ("1,2" : String).data).map String.mk,
          progress := false })) :=
  drilldown_filter_always_none drilldownProbe
    { minzoom := none, maxzoom := none, points := "1,2" } rfl

/-- C8 counterexample: when the external call fails, each of the four
metadata handlers panics through `unwrap` and constructs no response at
all — in particular no HTTP 500 response is produced by this code. -/
theorem metadata_failure_no_500_cex :
    (mvt_metadata (Except.error "connection refused")).statusOf = none ∧
    (tileset_tilejson (fun _ _ => Except.error "connection refused")
        "http" "localhost:6767" "osm").statusOf = none ∧
    (tileset_style_json (fun _ _ => Except.error "connection refused")
        "http" "localhost:6767" "osm").statusOf = none ∧
    (tileset_metadata_json (fun _ => Except.error "connection refused")
        "osm").statusOf = none :=
  ⟨rfl, rfl, rfl, rfl⟩

/-- C8 (amended): each of the catalog-metadata, TileJSON, style and
tileset-metadata handlers passes the external call's JSON document through
as a 200 response on success; an external-call failure makes the handler
panic through `unwrap`, aborting that request without a constructed
response (the code builds no HTTP 500). -/
theorem metadata_handlers_passthrough_or_panic (j : Json) (e : String)
    (f : String → String → Json) (g : String → Json)
    (scheme host tileset : String) :
    mvt_metadata (Except.ok j) = .response (jsonOkResponse j) ∧
    mvt_metadata (Except.error e) = .panics e ∧
    tileset_tilejson (fun u t => Except.ok (f u t)) scheme host tileset =
      .response (jsonOkResponse (f (req_baseurl scheme host) tileset)) ∧
    tileset_tilejson (fun _ _ => Except.error e) scheme host tileset = .panics e ∧
    tileset_style_json (fun u t => Except.ok (f u t)) scheme host tileset =
      .response (jsonOkResponse (f (req_baseurl scheme host) tileset)) ∧
    tileset_style_json (fun _ _ => Except.error e) scheme host tileset = .panics e ∧
    tileset_metadata_json (fun t => Except.ok (g t)) tileset =
      .response (jsonOkResponse (g tileset)) ∧
    tileset_metadata_json (fun _ => Except.error e) tileset = .panics e :=
  ⟨rfl, rfl, rfl, rfl, rfl, rfl, rfl, rfl⟩

/-- C9: for a request path no API route matches, the configured static
directories (those existing at startup) are consulted in declaration
order ahead of the embedded default assets — the first directory whose
service handles the path wins, whatever the viewer flag — and the
embedded-asset handler can only be the resolution when the viewer flag is
enabled; hence a path served both by a configured directory and by the
embedded assets resolves to the directory. -/
theorem static_dirs_before_embedded (staticDirs : List StaticDirCfg)
    (dirExists : String → Bool) (dirServes : StaticDirCfg → String → Bool)
    (mvtViewer : Bool) (p : String) (hapi : apiRoute p = none) :
    (∀ d, (staticDirs.filter (fun d => dirExists d.dir)).find?
        (fun d => dirServes d p) = some d →
      resolveApp staticDirs dirExists dirServes mvtViewer p =
        some (Handler.filesDir d.path d.dir)) ∧
    (resolveApp staticDirs dirExists dirServes mvtViewer p =
        some Handler.embeddedAssets → mvtViewer = true) := by
  constructor
  · intro d hd
    rw [resolveApp, hapi, hd]
  · intro hres
    rw [resolveApp, hapi] at hres
    cases hfind : (staticDirs.filter (fun d => dirExists d.dir)).find?
        (fun d => dirServes d p) with
    | some d =>
      rw [hfind] at hres
      exact absurd hres (by simp)
    | none =>
      rw [hfind] at hres
      cases mvtViewer with
      | true => rfl
      | false => exact absurd hres (by simp)

theorem static_dirs_before_embedded_witness :
    resolveApp [{ path := "/", dir := "public" }] (fun _ => true)
        (fun _ q => q == "/app.js") true "/app.js" =
      some (Handler.filesDir "/" "public") :=
  (static_dirs_before_embedded [{ path := "/", dir := "public" }] (fun _ => true)
      (fun _ q => q == "/app.js") true "/app.js" rfl).1
    { path := "/", dir := "public" } rfl

/-- C10: the `/drilldown` resource is registered only under the viewer
flag: with the viewer disabled (and no static directory shadowing the
path) the dispatch of `GET /drilldown` matches no registered service and
falls out as `none`, which actix answers with `NotFound`; with the viewer
enabled the same path resolves to the drilldown handler. -/
theorem drilldown_route_viewer_only (staticDirs : List StaticDirCfg)
    (dirExists : String → Bool) (dirServes : StaticDirCfg → String → Bool)
    (h : ∀ d ∈ staticDirs, dirServes d "/drilldown" = false) :
    resolveApp staticDirs dirExists dirServes false "/drilldown" = none ∧
    resolveApp staticDirs dirExists dirServes true "/drilldown" =
      some Handler.drilldownRoute := by
  have hapi : apiRoute "/drilldown" = none := rfl
  have hfind : (staticDirs.filter (fun d => dirExists d.dir)).find?
      (fun d => dirServes d "/drilldown") = none := by
    rw [List.find?_eq_none]
    intro d hd
    have hmem : d ∈ staticDirs := (List.mem_filter.mp hd).1
    simp [h d hmem]
  constructor
  · rw [resolveApp, hapi, hfind]
    rfl
  · rw [resolveApp, hapi, hfind]
    rfl

theorem drilldown_route_viewer_only_witness :
    resolveApp [] (fun _ => true) (fun _ _ => false) false "/drilldown" = none ∧
    resolveApp [] (fun _ => true) (fun _ _ => false) true "/drilldown" =
      some Handler.drilldownRoute :=
  drilldown_route_viewer_only [] (fun _ => true) (fun _ _ => false)
    (fun d hd => absurd hd (List.not_mem_nil d))

end TRex
